import Mathlib

/-!
Verification of the job-orchestration and UI-state core of the
bilibili-voice-clone-mac application.

Shallow embedding of `src/voice_clone_app.py` (class `VoiceCloneApp`) and
`src/voice_clone_model.py`.  Pure helpers become Lean functions; the mutable
window/session object becomes the explicit record `AppState`; each Qt slot or
worker body becomes a state-transforming function; durations and audio
amplitudes are rationals; the opaque external collaborators (duration probe,
ffmpeg conversion) are function parameters.
-/

namespace VoiceClone

/-! ### Python string helpers -/

/-- Whitespace characters stripped by the Python method str.strip()
(ASCII subset: space, tab, newline, carriage return, vertical tab, form feed). -/
def pyIsSpace (c : Char) : Bool :=
  c = ' ' || c = '\t' || c = '\n' || c = '\r' || c = '\x0b' || c = '\x0c'

/-- Models Python str.strip(): drop leading and trailing whitespace. -/
def pyStrip (s : String) : String :=
  String.mk (((s.toList.dropWhile pyIsSpace).reverse.dropWhile pyIsSpace).reverse)

/-- Models Python str.lower() (ASCII case folding). -/
def pyLower (s : String) : String :=
  String.mk (s.toList.map Char.toLower)

/-- Models Python str.endswith(suffix). -/
def pyEndsWith (s suffix : String) : Bool :=
  suffix.toList.isSuffixOf s.toList

/-- Models os.path.basename for forward-slash paths. -/
def basename (p : String) : String :=
  (p.splitOn "/").getLastD p

/-- Renders a rational with one decimal digit, modelling the Python format
spec .1f used for durations (float round-half-to-even is not reproduced). -/
def fmt1 (q : ℚ) : String :=
  toString (round (q * 10) / 10 : ℤ) ++ "." ++ toString ((round (q * 10) : ℤ) % 10)

/-- Two-digit zero padding, as produced by time.strftime for each of the
hour, minute and second fields. -/
def pad2 (n : Nat) : String :=
  if n < 10 then "0" ++ toString n else toString n

/-- Models time.strftime with format H colon M colon S at a wall-clock time
of h hours, m minutes, sec seconds. -/
def strftime_HMS (h m sec : Nat) : String :=
  pad2 h ++ ":" ++ pad2 m ++ ":" ++ pad2 sec

/-! ### voice_clone_model.py -/

/-- The ValueError raised by validate_audio_file when the probed duration
exceeds the maximum; carries the data interpolated into the message. -/
inductive ValidationError
  | tooLong (duration : ℚ) (max_duration : ℚ)
  deriving Repr, DecidableEq

/-- Message text of the ValueError (source line 213; rendering of the two
interpolated numbers approximates the float formatting). -/
def validationErrorMessage : ValidationError → String
  | ValidationError.tooLong d m =>
      "Audio file is too long (" ++ fmt1 d ++ " seconds). Maximum allowed: " ++
        fmt1 m ++ " seconds."

/-- validate_audio_file (voice_clone_model.py lines 195-222).
probe models get_audio_duration, conv models convert_to_wav; both are opaque
external utilities, so they are parameters.  Duration check first; then a
path whose lower-cased name ends in .wav is returned unchanged, any other
path is routed through convert_to_wav. -/
def validate_audio_file (probe : String → ℚ) (conv : String → String)
    (filepath : String) (max_duration : ℚ) : Except ValidationError String :=
  if probe filepath > max_duration then
    Except.error (ValidationError.tooLong (probe filepath) max_duration)
  else if pyEndsWith (pyLower filepath) ".wav" then
    Except.ok filepath
  else
    Except.ok (conv filepath)

/-! ### The synthesis call signature (claim C1)

voice_clone_model.generate_speech (lines 225-243) declares exactly four
parameters and no var-keyword parameter.  The call site in
VoiceCloneApp.generate_and_play.generate (app lines 1254-1264) passes five
keyword arguments on top of the four positional ones.  Python call binding
raises TypeError when a keyword argument does not name a declared parameter
of a callee without var-keyword parameters. -/

/-- Parameter names of def generate_speech(model, voice_sample_path, text,
output_path) in voice_clone_model.py. -/
def generate_speech_param_names : List String :=
  ["model", "voice_sample_path", "text", "output_path"]

/-- generate_speech declares no var-keyword parameter. -/
def generate_speech_has_var_keyword : Bool := false

/-- Keyword-argument names at the synthesis call site in
generate_and_play.generate (app lines 1259-1263). -/
def synthesis_call_keyword_names : List String :=
  ["emo_vector", "use_emo_text", "emo_text", "max_mel_tokens", "length_penalty"]

/-- Python call binding: the call raises TypeError iff some keyword argument
is not a declared parameter and the callee has no var-keyword parameter. -/
def synthesis_call_raises_type_error : Bool :=
  !generate_speech_has_var_keyword &&
    synthesis_call_keyword_names.any
      (fun k => !(generate_speech_param_names.contains k))

/-- The TypeError text Python produces for the first offending keyword
(Python additionally quotes the argument name). -/
def type_error_message : String :=
  "generate_speech() got an unexpected keyword argument emo_vector"

/-! ### Application state -/

/-- Opaque handle to the loaded IndexTTS2 model. -/
structure ModelHandle where
  model_dir : String
  deriving Repr, DecidableEq

/-- The mutable state of the VoiceCloneApp window: the session fields set in
init (app lines 131-141), the enabled flags and visibility of the
interactive widgets, the status line, plus observables for the claims:
counters of started timed sequences and jobs, whether a recording worker
thread is alive, how many afplay playback processes were spawned, and the
last modal dialog surfaced (title, message). -/
structure AppState where
  tts : Option ModelHandle
  voice_sample_path : Option String
  generated_audio_path : Option String
  is_generating : Bool
  model_loaded : Bool
  loading_active : Bool
  advanced_mode : Bool
  play_button_enabled : Bool
  record_button_enabled : Bool
  play_generated_enabled : Bool
  file_info_visible : Bool
  drop_label_visible : Bool
  generated_frame_visible : Bool
  main_content_shown : Bool
  countdown_open : Bool
  status_text : String
  file_name_text : String
  error_dialog : Option (String × String)
  recording_in_flight : Bool
  timed_sequences_started : Nat
  recording_jobs_started : Nat
  synthesis_jobs_started : Nat
  playbacks : Nat
  deriving Repr, DecidableEq

/-- State after VoiceCloneApp.init and widget creation: no model handle,
no sample, Generate and Record created disabled (app lines 533 and 733),
placeholder drop label shown, status Initializing. -/
def initialState : AppState where
  tts := none
  voice_sample_path := none
  generated_audio_path := none
  is_generating := false
  model_loaded := false
  loading_active := false
  advanced_mode := false
  play_button_enabled := false
  record_button_enabled := false
  play_generated_enabled := false
  file_info_visible := false
  drop_label_visible := true
  generated_frame_visible := false
  main_content_shown := false
  countdown_open := false
  status_text := "Initializing..."
  file_name_text := ""
  error_dialog := none
  recording_in_flight := false
  timed_sequences_started := 0
  recording_jobs_started := 0
  synthesis_jobs_started := 0
  playbacks := 0

/-! ### Model loading (claims C2) -/

/-- Result of the load_model() call made by the init_model worker. -/
inductive LoadModelResult
  | ok (m : ModelHandle)
  | notFound (msg : String)
  | failed (msg : String)
  deriving Repr, DecidableEq

/-- on_model_loaded (app lines 185-191): sets model_loaded, shows the main
content, and via 100 ms single shots sets the ready status and enables the
Generate (play_button) and Record controls. -/
def on_model_loaded_state (s : AppState) : AppState :=
  { s with model_loaded := true,
           main_content_shown := true,
           status_text := "Model loaded! Drop an audio file or record from microphone.",
           play_button_enabled := true,
           record_button_enabled := true }

/-- init_model (app lines 163-183) composed with the signal handler it
triggers.  On success the handle is stored and on_model_loaded applies.  On
either failure the code still emits model_loaded_signal (so on_model_loaded
also runs) and additionally schedules an error dialog and an error status
line via 100 ms single shots.  The relative firing order of the several
100 ms timers is racy in the source; only the dialog and the button flags,
which every order agrees on, are relied upon by the theorems. -/
def init_model (s : AppState) (r : LoadModelResult) : AppState :=
  match r with
  | LoadModelResult.ok m => on_model_loaded_state { s with tts := some m }
  | LoadModelResult.notFound msg =>
      { on_model_loaded_state { s with model_loaded := true } with
          error_dialog := some ("Model Not Found", msg),
          status_text := "ERROR: Model not found" }
  | LoadModelResult.failed msg =>
      { on_model_loaded_state { s with model_loaded := true } with
          error_dialog := some ("Model Loading Error", "Failed to load model: " ++ msg),
          status_text := "ERROR: Failed to load model: " ++ msg }

/-! ### Sample loading and removal (claims C5, C9, C10) -/

/-- load_voice_sample (app lines 1023-1060).  The transient Processing
status is overwritten on every path and is elided.  On a ValueError from
validation the handler shows a critical dialog and an error status and
touches nothing else; on success the validated path overwrites
voice_sample_path and the file-info tile replaces the placeholder. -/
def load_voice_sample (probe : String → ℚ) (conv : String → String)
    (s : AppState) (filepath : String) (display_name : Option String) : AppState :=
  match validate_audio_file probe conv filepath 10 with
  | Except.error e =>
      { s with error_dialog := some ("Error", validationErrorMessage e),
               status_text := "Error: " ++ validationErrorMessage e }
  | Except.ok validated =>
      { s with voice_sample_path := some validated,
               file_name_text := (display_name.getD (basename validated)) ++ " (" ++
                 fmt1 (probe validated) ++ "s)",
               drop_label_visible := false,
               file_info_visible := true,
               status_text := "Voice sample loaded: " ++
                 (display_name.getD (basename validated)) }

/-- remove_file (app lines 873-878): clears the sample path, hides the
file-info tile, shows the placeholder label, sets the status line. -/
def remove_file (s : AppState) : AppState :=
  { s with voice_sample_path := none,
           file_info_visible := false,
           drop_label_visible := true,
           status_text := "File removed" }

/-! ### Generation (claims C1, C6) -/

/-- Outcome of the synchronous precondition cascade at the top of
generate_and_play (app lines 1185-1201): silent return while generating,
critical dialog when the model or the sample is missing or the stripped
text is empty, otherwise the worker thread is started with the stripped
text. -/
inductive GenerateCheck
  | busyReturn
  | modelNotLoaded
  | noVoiceSample
  | emptyText
  | started (text : String)
  deriving Repr, DecidableEq

/-- The precondition cascade of generate_and_play, in source order. -/
def generate_and_play_check (s : AppState) (raw : String) : GenerateCheck :=
  if s.is_generating then GenerateCheck.busyReturn
  else if s.tts.isNone then GenerateCheck.modelNotLoaded
  else if s.voice_sample_path.isNone then GenerateCheck.noVoiceSample
  else if pyStrip raw = "" then GenerateCheck.emptyText
  else GenerateCheck.started (pyStrip raw)

/-- Which terminal signal the generate worker emits. -/
inductive GenOutcome
  | complete (output_path : String)
  | error (msg : String)
  deriving Repr, DecidableEq

/-- Terminal outcome of the generate worker body (app lines 1212-1272).
The call to generate_speech is made with keyword arguments that the callee
does not declare, so Python raises TypeError during call binding, before
any inference runs; the except handler then emits generation_error_signal.
Were the call to bind, the worker would emit generation_complete_signal
with the fresh output path; the branch on the binding check keeps both
paths visible. -/
def generate_worker_outcome (output_path : String) : GenOutcome :=
  if synthesis_call_raises_type_error then
    GenOutcome.error ("Error generating speech: " ++ type_error_message)
  else
    GenOutcome.complete output_path

/-- The direct mutations the generate worker performs at the start of its
body (app lines 1204-1210): busy flag up, Generate and Record disabled,
loading animation on, status cleared.  (These run on the worker thread;
see the thread-action model below.) -/
def generate_worker_start (s : AppState) : AppState :=
  { s with is_generating := true,
           play_button_enabled := false,
           record_button_enabled := false,
           loading_active := true,
           status_text := "" }

/-- on_generation_complete (app lines 244-275): stops the loading
animation, stores the generated path, shows the generated-audio tile,
enables its play control, spawns the afplay auto-playback process, and
re-enables Generate and Record while clearing the busy flag. -/
def on_generation_complete (s : AppState) (output_path : String) : AppState :=
  { s with loading_active := false,
           generated_audio_path := some output_path,
           generated_frame_visible := true,
           play_generated_enabled := true,
           status_text := "Speech generated! Auto-playing...",
           playbacks := s.playbacks + 1,
           is_generating := false,
           play_button_enabled := true,
           record_button_enabled := true }

/-- on_generation_error (app lines 277-284): stops the loading animation,
shows the error in status line and critical dialog, clears the busy flag,
re-enables Generate and Record. -/
def on_generation_error (s : AppState) (msg : String) : AppState :=
  { s with loading_active := false,
           status_text := "ERROR: " ++ msg,
           error_dialog := some ("Generation Error", msg),
           is_generating := false,
           play_button_enabled := true,
           record_button_enabled := true }

/-- Dispatch of the single terminal signal of one synthesis job to its
handler on the interactive thread. -/
def on_generation_result (s : AppState) (output_path : String) : AppState :=
  match generate_worker_outcome output_path with
  | GenOutcome.complete p => on_generation_complete s p
  | GenOutcome.error m => on_generation_error s m

/-- End-to-end state effect of one generate_and_play call: the
precondition cascade, then (only when it passes) exactly one worker thread
whose terminal outcome is applied by the matching handler.  output_path is
the timestamped output/output_(unix).wav file name computed in the worker. -/
def generate_flow (s : AppState) (raw output_path : String) : AppState :=
  match generate_and_play_check s raw with
  | GenerateCheck.busyReturn => s
  | GenerateCheck.modelNotLoaded =>
      { s with error_dialog := some ("Error", "Model not loaded yet. Please wait.") }
  | GenerateCheck.noVoiceSample =>
      { s with error_dialog := some ("Error", "Please select a voice sample or record one first.") }
  | GenerateCheck.emptyText =>
      { s with error_dialog := some ("Error", "Please enter some text to speak.") }
  | GenerateCheck.started _ =>
      on_generation_result
        (generate_worker_start
          { s with synthesis_jobs_started := s.synthesis_jobs_started + 1 })
        output_path

/-! ### Recording (claims C4, C7) -/

/-- What a record_audio call does synchronously. -/
inductive RecordCallResult
  | rejectedBusy
  | countdownStarted
  deriving Repr, DecidableEq

/-- record_audio guard and countdown start (app lines 1090-1094 and
1062-1088): only the is_generating flag is consulted; when it is up a Busy
warning dialog is shown and nothing starts; otherwise the countdown dialog
opens and the 3-tick pre-roll timed sequence begins. -/
def record_audio (s : AppState) : AppState × RecordCallResult :=
  if s.is_generating then
    ({ s with error_dialog := some ("Busy", "Please wait for current operation to complete.") },
     RecordCallResult.rejectedBusy)
  else
    ({ s with countdown_open := true,
              timed_sequences_started := s.timed_sequences_started + 1 },
     RecordCallResult.countdownStarted)

/-- start_recording (app lines 1096-1180), fired by the pre-roll
completion: starts the 5-tick recording-progress timed sequence and the
recording worker thread, whose first signal-driven effects disable the
Record control and set the recording status. -/
def start_recording (s : AppState) : AppState :=
  { s with timed_sequences_started := s.timed_sequences_started + 1,
           recording_jobs_started := s.recording_jobs_started + 1,
           recording_in_flight := true,
           record_button_enabled := false,
           status_text := "Recording... Speak now!" }

/-- The isBusy notion of the specification: a Job of either kind
(recording or synthesis) is in flight. -/
def spec_isBusy (s : AppState) : Bool :=
  s.is_generating || s.recording_in_flight

/-- Recording parameters of the record worker (app lines 1127-1141). -/
def recording_duration : Nat := 5

/-- Sample rate in Hz. -/
def recording_sample_rate : Nat := 24000

/-- Mono capture. -/
def recording_channels : Nat := 1

/-- The dtype string passed to sd.rec. -/
def recording_dtype : String := "float32"

/-- Frames requested from sd.rec: int(duration * sample_rate). -/
def recording_frames : Nat := recording_duration * recording_sample_rate

/-- The fixed silence threshold 0.001 (app line 1149). -/
def silence_threshold : ℚ := 1 / 1000

/-- np.max(np.abs(recording)) over the captured buffer (amplitudes on a
-1..1 scale as rationals; the buffer is nonempty, so folding from 0 equals
the true maximum of the absolute values). -/
def buffer_peak (recording : List ℚ) : ℚ :=
  recording.foldl (fun acc x => max acc |x|) 0

/-- Terminal outcome of the record worker body. -/
inductive RecordWorkerResult
  | silentRecording
  | saved (output_file : String) (display_name : String)
  deriving Repr, DecidableEq

/-- Tail of the record worker (app lines 1146-1166): the silence check
raises before sf.write when the peak is below the threshold; otherwise the
file is written and recording_complete_signal carries the path and display
name.  The Bool records whether the sf.write file write happened. -/
def record_worker (recording : List ℚ) (output_file display_name : String) :
    RecordWorkerResult × Bool :=
  if buffer_peak recording < silence_threshold then
    (RecordWorkerResult.silentRecording, false)
  else
    (RecordWorkerResult.saved output_file display_name, true)

/-- The display name built in the record worker (app line 1165). -/
def recording_display_name (h m sec : Nat) : String :=
  "Recorded " ++ strftime_HMS h m sec

/-! ### Timed events of the recording flow (claim C8)

The recording flow is a chain of 1000 ms single-shot timers.  Each event is
paired with its scheduled time in milliseconds from the record_audio call. -/

/-- Observable events of the recording flow. -/
inductive RecEvent
  | preTick (n : Nat)
  | goLabel
  | startRecordingJob
  | recTick (n : Nat)
  | recordingComplete (path display_name : String)
  | closeCountdown
  | autoLoadSample (path display_name : String)
  | statusRecordingDone
  | enableRecordButton
  deriving Repr, DecidableEq

/-- show_countdown.pre_countdown (app lines 1071-1085): at each positive
count the big label shows the count and the next step is scheduled 1000 ms
later; at zero the Go label shows and the callback fires at that instant. -/
def pre_countdown_events : Nat → Nat → List (Nat × RecEvent)
  | Nat.succ n, t =>
      (t, RecEvent.preTick (Nat.succ n)) :: pre_countdown_events n (t + 1000)
  | 0, t => [(t, RecEvent.goLabel)]

/-- record_audio.start_recording.recording_countdown (app lines 1099-1104):
emits update_countdown_signal with each positive count 1000 ms apart and
finally with 0. -/
def recording_countdown_events : Nat → Nat → List (Nat × RecEvent)
  | Nat.succ n, t =>
      (t, RecEvent.recTick (Nat.succ n)) :: recording_countdown_events n (t + 1000)
  | 0, t => [(t, RecEvent.recTick 0)]

/-- start_recording at time t: recording_countdown(5) emits its first tick
synchronously and schedules the remainder; the recording worker thread is
launched immediately afterwards, concurrent with the countdown. -/
def start_recording_events (t : Nat) : List (Nat × RecEvent) :=
  [(t, RecEvent.recTick 5), (t, RecEvent.startRecordingJob)] ++
    recording_countdown_events 4 (t + 1000)

/-- on_recording_complete (app lines 236-242), entered at time tc when the
recording_complete_signal of the Succeeded job is delivered: single shots
close the countdown dialog after 500 ms, and after 600 ms auto-load the
recorded sample, set the completion status, and re-enable Record (the
three 600 ms timers fire in creation order). -/
def on_recording_complete_events (tc : Nat) (path display_name : String) :
    List (Nat × RecEvent) :=
  [(tc, RecEvent.recordingComplete path display_name),
   (tc + 500, RecEvent.closeCountdown),
   (tc + 600, RecEvent.autoLoadSample path display_name),
   (tc + 600, RecEvent.statusRecordingDone),
   (tc + 600, RecEvent.enableRecordButton)]

/-- The full successful recording flow: 3-tick pre-roll from time 0, whose
completion at 3000 ms starts the job and the 5-tick countdown, and the
success events from the time tc at which the job delivered its outcome. -/
def record_flow_events (tc : Nat) (path display_name : String) :
    List (Nat × RecEvent) :=
  pre_countdown_events 3 0 ++ start_recording_events 3000 ++
    on_recording_complete_events tc path display_name

/-! ### Worker-thread actions (claim C3)

Each worker body is embedded as the ordered list of its statements that
touch state, classified by mechanism: a direct Python attribute write or
widget call from the worker thread, a queued signal emission, a timer
scheduling, a filesystem operation, or an external blocking call. -/

/-- One statement of a worker body. -/
inductive ThreadAction
  | setField (name : String)
  | setWidgetEnabled (name : String) (v : Bool)
  | setWidgetText (name : String)
  | emitSignal (name : String)
  | scheduleTimer (delayMs : Nat) (slot : String)
  | fsWrite (what : String)
  | callExternal (what : String)
  deriving Repr, DecidableEq

/-- Does the action directly mutate interactive-thread-owned state (a
session attribute, a widget enabled flag, a label text)?  Signal emissions
and timer scheduling are the queued hand-off primitives; filesystem and
external calls touch no interactive state. -/
def directInteractiveMutation : ThreadAction → Bool
  | ThreadAction.setField _ => true
  | ThreadAction.setWidgetEnabled _ _ => true
  | ThreadAction.setWidgetText _ => true
  | ThreadAction.emitSignal _ => false
  | ThreadAction.scheduleTimer _ _ => false
  | ThreadAction.fsWrite _ => false
  | ThreadAction.callExternal _ => false

/-- animate_loading(True) called from the generate worker (app lines
1276-1292): resets loading_dots, raises loading_active, and update_loading
writes the loading label directly and re-schedules itself. -/
def animate_loading_actions : List ThreadAction :=
  [ThreadAction.setField "loading_dots",
   ThreadAction.setField "loading_active",
   ThreadAction.setWidgetText "loading_label",
   ThreadAction.scheduleTimer 200 "update_loading"]

/-- Statements shared by both paths of the generate worker body (app lines
1203-1264), in source order. -/
def generate_worker_prefix_actions : List ThreadAction :=
  [ThreadAction.setField "is_generating",
   ThreadAction.setWidgetEnabled "play_button" false,
   ThreadAction.setWidgetEnabled "record_button" false] ++
  animate_loading_actions ++
  [ThreadAction.setWidgetText "status_label",
   ThreadAction.fsWrite "makedirs output",
   ThreadAction.callExternal "generate_speech"]

/-- Generate worker, success path: ends with the queued
generation_complete_signal emission (app line 1267). -/
def generate_worker_success_actions : List ThreadAction :=
  generate_worker_prefix_actions ++
    [ThreadAction.emitSignal "generation_complete_signal"]

/-- Generate worker, failure path: ends with the queued
generation_error_signal emission (app line 1271). -/
def generate_worker_failure_actions : List ThreadAction :=
  generate_worker_prefix_actions ++
    [ThreadAction.emitSignal "generation_error_signal"]

/-- Record worker, success path (app lines 1110-1166): every interactive
update goes through a signal; the worker itself only touches the
filesystem and the audio device. -/
def record_worker_success_actions : List ThreadAction :=
  [ThreadAction.emitSignal "button_enable_signal",
   ThreadAction.emitSignal "status_update_signal",
   ThreadAction.fsWrite "makedirs recordings",
   ThreadAction.callExternal "sd.rec",
   ThreadAction.callExternal "sd.wait",
   ThreadAction.fsWrite "sf.write recording",
   ThreadAction.emitSignal "recording_complete_signal"]

/-- Record worker, failure path (for example the silent-recording raise;
app lines 1168-1177): the except handler emits only signals. -/
def record_worker_failure_actions : List ThreadAction :=
  [ThreadAction.emitSignal "button_enable_signal",
   ThreadAction.emitSignal "status_update_signal",
   ThreadAction.fsWrite "makedirs recordings",
   ThreadAction.callExternal "sd.rec",
   ThreadAction.callExternal "sd.wait",
   ThreadAction.emitSignal "close_countdown_signal",
   ThreadAction.emitSignal "status_update_signal",
   ThreadAction.emitSignal "show_message_signal",
   ThreadAction.emitSignal "button_enable_signal"]

/-- init_model worker, success path (app lines 163-170): assigns self.tts
directly on the worker thread, then emits model_loaded_signal. -/
def init_model_worker_success_actions : List ThreadAction :=
  [ThreadAction.callExternal "load_model",
   ThreadAction.setField "tts",
   ThreadAction.emitSignal "model_loaded_signal"]

/-- init_model worker, failure path (app lines 172-183): assigns
self.model_loaded directly on the worker thread, emits the signal, and
schedules the error dialog and status. -/
def init_model_worker_failure_actions : List ThreadAction :=
  [ThreadAction.callExternal "load_model",
   ThreadAction.setField "model_loaded",
   ThreadAction.emitSignal "model_loaded_signal",
   ThreadAction.scheduleTimer 100 "show_message_signal.emit",
   ThreadAction.scheduleTimer 100 "status_update_signal.emit"]

/-- The terminal-outcome deliveries of the three job kinds. -/
def job_outcome_actions : List ThreadAction :=
  [ThreadAction.emitSignal "model_loaded_signal",
   ThreadAction.emitSignal "recording_complete_signal",
   ThreadAction.emitSignal "generation_complete_signal",
   ThreadAction.emitSignal "generation_error_signal"]

/-! ### Concrete states used by counterexamples and witnesses -/

/-- A loaded model handle. -/
def modelHandle0 : ModelHandle := { model_dir := "checkpoints" }

/-- A state reached after a successful model load followed by a successful
sample load: model handle held, sample set, Generate and Record enabled,
no job in flight. -/
def readyState : AppState :=
  { initialState with
      tts := some modelHandle0,
      model_loaded := true,
      main_content_shown := true,
      play_button_enabled := true,
      record_button_enabled := true,
      voice_sample_path := some "recordings/recorded_1700000000.wav",
      drop_label_visible := false,
      file_info_visible := true,
      status_text := "Voice sample loaded: recorded_1700000000.wav" }

/-- The state in the middle of a recording flow: record_audio accepted the
request, the pre-roll completed and start_recording launched the Recording
Job, which is still in flight. -/
def midRecordingState : AppState :=
  start_recording (record_audio readyState).1

/-- A ready state with a synthesis job in flight. -/
def busyState : AppState := { readyState with is_generating := true }

/-- A captured buffer whose peak absolute amplitude 1/2000 is below the
silence threshold 1/1000. -/
def silentBuffer : List ℚ := [0, 1/2000]

/-- A duration probe reporting 12 seconds for every file. -/
def probe12 : String → ℚ := fun _ => 12

/-! ### Theorems -/

/-- Helper: the zero-padded strftime field of a value below 100 renders as
exactly two characters. -/
theorem pad2_length_two : ∀ n < 100, (pad2 n).length = 2 := by decide

/-- Claim C1 (refuting evaluation, code bug): with a loaded model handle, a
set voiceSamplePath and non-empty trimmed text, generate_and_play does
start exactly one Synthesis Job, but the job can never succeed: the call
site passes the five keyword arguments emo_vector, use_emo_text, emo_text,
max_mel_tokens and length_penalty, none of which is a declared parameter
of voice_clone_model.generate_speech, so Python raises TypeError during
call binding and the worker takes the generation_error path on every run.
Hence generatedAudioPath is never set, playback is never triggered, and
the status line ends with the TypeError text (the controls are re-enabled
by the error handler, not the success handler). -/
theorem C1_synthesis_call_type_error :
    synthesis_call_raises_type_error = true ∧
    (synthesis_call_keyword_names.all (fun k => generate_speech_param_names.contains k)) = false ∧
    generate_and_play_check readyState "Hello world" = GenerateCheck.started "Hello world" ∧
    (generate_flow readyState "Hello world" "output/output_1700000100.wav").synthesis_jobs_started = 1 ∧
    (generate_flow readyState "Hello world" "output/output_1700000100.wav").generated_audio_path = none ∧
    (generate_flow readyState "Hello world" "output/output_1700000100.wav").playbacks = 0 ∧
    (generate_flow readyState "Hello world" "output/output_1700000100.wav").status_text =
      "ERROR: " ++ ("Error generating speech: " ++ type_error_message) :=
  ⟨rfl, rfl, rfl, rfl, rfl, rfl, rfl⟩

/-- Claim C2 (counterexample): after a failed ModelLoad (model directory
absent) the Generate and Record controls are enabled, not kept disabled —
init_model emits model_loaded_signal on the failure path too and
on_model_loaded enables both controls. -/
theorem C2_load_failure_enables_controls :
    (init_model initialState (LoadModelResult.notFound "IndexTTS-2 model not found. Please download it first.")).play_button_enabled = true ∧
    (init_model initialState (LoadModelResult.notFound "IndexTTS-2 model not found. Please download it first.")).record_button_enabled = true :=
  ⟨rfl, rfl⟩

/-- Claim C2 (amended): when the ModelLoad job fails, the failure path
still emits model_loaded_signal, so the Generate and Record controls end
up enabled; a blocking error notification is surfaced; the model handle
stays absent, so every later generate_and_play call fails fast with the
model-not-loaded error and never starts a Synthesis Job (and there is no
retry: only restarting the process can load the model). -/
theorem C2_amended_load_failure_behavior (s : AppState) (msg : String)
    (ht : s.tts = none) (hg : s.is_generating = false) :
    (init_model s (LoadModelResult.notFound msg)).play_button_enabled = true ∧
    (init_model s (LoadModelResult.notFound msg)).record_button_enabled = true ∧
    (init_model s (LoadModelResult.notFound msg)).tts = none ∧
    (init_model s (LoadModelResult.notFound msg)).error_dialog = some ("Model Not Found", msg) ∧
    (∀ raw t, generate_and_play_check (init_model s (LoadModelResult.notFound msg)) raw ≠ GenerateCheck.started t) ∧
    (∀ raw, generate_and_play_check (init_model s (LoadModelResult.notFound msg)) raw = GenerateCheck.modelNotLoaded) := by
  have h1 : (init_model s (LoadModelResult.notFound msg)).tts = none := by
    simp [init_model, on_model_loaded_state, ht]
  have h2 : (init_model s (LoadModelResult.notFound msg)).is_generating = false := by
    simp [init_model, on_model_loaded_state, hg]
  have hcheck : ∀ raw, generate_and_play_check (init_model s (LoadModelResult.notFound msg)) raw = GenerateCheck.modelNotLoaded := by
    intro raw
    unfold generate_and_play_check
    rw [h2, h1]
    simp
  refine ⟨rfl, rfl, h1, rfl, ?_, hcheck⟩
  intro raw t
  rw [hcheck raw]
  simp

/-- Witness for the amended claim C2 at the initial state. -/
theorem C2_amended_witness :
    (init_model initialState (LoadModelResult.notFound "model missing")).play_button_enabled = true ∧
    generate_and_play_check (init_model initialState (LoadModelResult.notFound "model missing")) "Hi" = GenerateCheck.modelNotLoaded :=
  ⟨(C2_amended_load_failure_behavior initialState "model missing" rfl rfl).1,
   (C2_amended_load_failure_behavior initialState "model missing" rfl rfl).2.2.2.2.2 "Hi"⟩

/-- Claim C3 (counterexample): the synthesis worker body directly mutates
interactive-thread-owned state — its very first statement assigns the
session field is_generating from the worker thread (and the following
statements disable the two buttons and write label text directly). -/
theorem C3_worker_mutates_directly :
    ThreadAction.setField "is_generating" ∈ generate_worker_success_actions ∧
    directInteractiveMutation (ThreadAction.setField "is_generating") = true := by
  refine ⟨?_, rfl⟩
  simp [generate_worker_success_actions, generate_worker_prefix_actions]

/-- Claim C3 (amended): every terminal outcome crossing the thread
boundary is delivered through a queued signal emission (the last action of
every worker path is a signal emit), and the recording worker performs no
direct mutation of interactive-thread-owned state at all; however the
synthesis worker directly mutates is_generating, the Generate and Record
enabled flags and the loading and status texts at the start of its body,
and the model-load worker directly assigns tts and model_loaded. -/
theorem C3_amended_outcomes_via_signals :
    record_worker_success_actions.all (fun a => !directInteractiveMutation a) = true ∧
    record_worker_failure_actions.all (fun a => !directInteractiveMutation a) = true ∧
    job_outcome_actions.all (fun a => !directInteractiveMutation a) = true ∧
    record_worker_success_actions.getLast? = some (ThreadAction.emitSignal "recording_complete_signal") ∧
    generate_worker_success_actions.getLast? = some (ThreadAction.emitSignal "generation_complete_signal") ∧
    generate_worker_failure_actions.getLast? = some (ThreadAction.emitSignal "generation_error_signal") ∧
    init_model_worker_success_actions.getLast? = some (ThreadAction.emitSignal "model_loaded_signal") ∧
    generate_worker_success_actions.any directInteractiveMutation = true ∧
    init_model_worker_success_actions.any directInteractiveMutation = true ∧
    init_model_worker_failure_actions.any directInteractiveMutation = true :=
  ⟨rfl, rfl, rfl, rfl, rfl, rfl, rfl, rfl, rfl, rfl⟩

/-- Claim C4 (counterexample): in the reachable state where a Recording
Job is in flight (isBusy in the sense of the specification), a record_audio
call is not rejected with Busy — is_generating is false during recording,
so the call starts a new countdown TimedSequence. -/
theorem C4_busy_recording_not_rejected :
    spec_isBusy midRecordingState = true ∧
    (record_audio midRecordingState).2 = RecordCallResult.countdownStarted ∧
    (record_audio midRecordingState).1.timed_sequences_started =
      midRecordingState.timed_sequences_started + 1 :=
  ⟨rfl, rfl, rfl⟩

/-- Claim C4 (amended): record_audio rejects with Busy exactly when a
Synthesis Job is in flight (is_generating), and a rejected call starts no
Job and no TimedSequence; a Recording Job in flight does not make
record_audio reject (the disabled Record control and the modal countdown
dialog are the only guards in that case). -/
theorem C4_amended_busy_guard (s : AppState) :
    ((record_audio s).2 = RecordCallResult.rejectedBusy ↔ s.is_generating = true) ∧
    (s.is_generating = true →
      (record_audio s).1.timed_sequences_started = s.timed_sequences_started ∧
      (record_audio s).1.recording_jobs_started = s.recording_jobs_started ∧
      (record_audio s).1.synthesis_jobs_started = s.synthesis_jobs_started ∧
      (record_audio s).1.recording_in_flight = s.recording_in_flight) := by
  unfold record_audio
  cases hg : s.is_generating <;> simp [hg]

/-- Witness for the amended claim C4 at a state with a synthesis job in
flight. -/
theorem C4_amended_witness :
    (record_audio busyState).2 = RecordCallResult.rejectedBusy ∧
    (record_audio busyState).1.timed_sequences_started = busyState.timed_sequences_started :=
  ⟨(C4_amended_busy_guard busyState).1.mpr rfl,
   ((C4_amended_busy_guard busyState).2 rfl).1⟩

/-- Claim C5 (confirmed): for every sample file whose probed duration is
strictly greater than 10 seconds, validation fails with the ValueError
(ValidationFailed) and load_voice_sample leaves voiceSamplePath — and
every other Session field (model handle, generated path, busy flag,
advanced mode) — unchanged. -/
theorem C5_long_sample_rejected (probe : String → ℚ) (conv : String → String)
    (s : AppState) (filepath : String) (display_name : Option String)
    (h : probe filepath > 10) :
    validate_audio_file probe conv filepath 10 =
      Except.error (ValidationError.tooLong (probe filepath) 10) ∧
    (load_voice_sample probe conv s filepath display_name).voice_sample_path = s.voice_sample_path ∧
    (load_voice_sample probe conv s filepath display_name).tts = s.tts ∧
    (load_voice_sample probe conv s filepath display_name).generated_audio_path = s.generated_audio_path ∧
    (load_voice_sample probe conv s filepath display_name).is_generating = s.is_generating ∧
    (load_voice_sample probe conv s filepath display_name).advanced_mode = s.advanced_mode := by
  have hv : validate_audio_file probe conv filepath 10 =
      Except.error (ValidationError.tooLong (probe filepath) 10) := by
    unfold validate_audio_file
    rw [if_pos h]
  refine ⟨hv, ?_, ?_, ?_, ?_, ?_⟩ <;> simp [load_voice_sample, hv]

/-- Witness for claim C5 with a 12-second file. -/
theorem C5_witness :
    validate_audio_file probe12 (fun p => p) "samples/long_clip.wav" 10 =
      Except.error (ValidationError.tooLong 12 10) ∧
    (load_voice_sample probe12 (fun p => p) readyState "samples/long_clip.wav" none).voice_sample_path = readyState.voice_sample_path :=
  ⟨(C5_long_sample_rejected probe12 (fun p => p) readyState "samples/long_clip.wav" none (by norm_num [probe12])).1,
   (C5_long_sample_rejected probe12 (fun p => p) readyState "samples/long_clip.wav" none (by norm_num [probe12])).2.1⟩

/-- Claim C6 (confirmed): for every text that is empty after stripping
whitespace, generate_and_play never reaches the worker-thread start in any
state (so no Synthesis Job and no worker thread is created) and every
Session field is unchanged; when the earlier guards pass (not busy, model
handle present, sample present) the failure is exactly the empty-text
validation rejection. -/
theorem C6_empty_text_no_job (s : AppState) (raw output_path : String)
    (h : pyStrip raw = "") :
    (∀ t, generate_and_play_check s raw ≠ GenerateCheck.started t) ∧
    (generate_flow s raw output_path).synthesis_jobs_started = s.synthesis_jobs_started ∧
    (generate_flow s raw output_path).tts = s.tts ∧
    (generate_flow s raw output_path).voice_sample_path = s.voice_sample_path ∧
    (generate_flow s raw output_path).generated_audio_path = s.generated_audio_path ∧
    (generate_flow s raw output_path).is_generating = s.is_generating ∧
    (generate_flow s raw output_path).advanced_mode = s.advanced_mode ∧
    (s.is_generating = false → s.tts.isNone = false → s.voice_sample_path.isNone = false →
      generate_and_play_check s raw = GenerateCheck.emptyText) := by
  have hd : generate_and_play_check s raw = GenerateCheck.busyReturn ∨
      generate_and_play_check s raw = GenerateCheck.modelNotLoaded ∨
      generate_and_play_check s raw = GenerateCheck.noVoiceSample ∨
      generate_and_play_check s raw = GenerateCheck.emptyText := by
    unfold generate_and_play_check
    by_cases h1 : s.is_generating <;> by_cases h2 : s.tts.isNone <;>
      by_cases h3 : s.voice_sample_path.isNone <;> simp [h1, h2, h3, h]
  have hne : ∀ t, generate_and_play_check s raw ≠ GenerateCheck.started t := by
    intro t hc
    rcases hd with h1 | h1 | h1 | h1 <;> rw [h1] at hc <;> exact GenerateCheck.noConfusion hc
  have hflow : ∃ d, generate_flow s raw output_path = { s with error_dialog := d } := by
    unfold generate_flow
    rcases hd with h1 | h1 | h1 | h1 <;> rw [h1]
    · exact ⟨s.error_dialog, rfl⟩
    · exact ⟨some ("Error", "Model not loaded yet. Please wait."), rfl⟩
    · exact ⟨some ("Error", "Please select a voice sample or record one first."), rfl⟩
    · exact ⟨some ("Error", "Please enter some text to speak."), rfl⟩
  obtain ⟨d, hde⟩ := hflow
  refine ⟨hne, ?_, ?_, ?_, ?_, ?_, ?_, ?_⟩
  · rw [hde]
  · rw [hde]
  · rw [hde]
  · rw [hde]
  · rw [hde]
  · rw [hde]
  · intro hg ht hv
    unfold generate_and_play_check
    simp [hg, ht, hv, h]

/-- Witness for claim C6 with the three-space text in the ready state. -/
theorem C6_witness :
    pyStrip "   " = "" ∧
    generate_and_play_check readyState "   " = GenerateCheck.emptyText ∧
    (generate_flow readyState "   " "output/output_1700000100.wav").synthesis_jobs_started = readyState.synthesis_jobs_started :=
  ⟨rfl,
   (C6_empty_text_no_job readyState "   " "output/output_1700000100.wav" rfl).2.2.2.2.2.2.2 rfl rfl rfl,
   (C6_empty_text_no_job readyState "   " "output/output_1700000100.wav" rfl).2.1⟩

/-- Claim C7 (confirmed): the Recording Job captures exactly 5 seconds at
24 kHz mono in 32-bit float (120000 frames requested), and any captured
buffer whose peak absolute amplitude is below the threshold 1/1000 makes
the worker raise the silent-recording error before sf.write, so the job
fails (DeviceError) and no file write occurs. -/
theorem C7_recording_contract (recording : List ℚ) (output_file display_name : String)
    (h : buffer_peak recording < silence_threshold) :
    recording_duration = 5 ∧ recording_sample_rate = 24000 ∧
    recording_channels = 1 ∧ recording_dtype = "float32" ∧
    recording_frames = 120000 ∧
    record_worker recording output_file display_name =
      (RecordWorkerResult.silentRecording, false) := by
  refine ⟨rfl, rfl, rfl, rfl, rfl, ?_⟩
  unfold record_worker
  rw [if_pos h]

/-- Witness for claim C7 on a buffer with peak 1/2000. -/
theorem C7_witness :
    buffer_peak silentBuffer < silence_threshold ∧
    record_worker silentBuffer "recordings/recorded_1700000000.wav" (recording_display_name 12 0 0) =
      (RecordWorkerResult.silentRecording, false) := by
  have h : buffer_peak silentBuffer < silence_threshold := by
    simp [silentBuffer, buffer_peak, silence_threshold]
    rw [abs_of_pos (by norm_num)]
    norm_num
  exact ⟨h, (C7_recording_contract silentBuffer "recordings/recorded_1700000000.wav" (recording_display_name 12 0 0) h).2.2.2.2.2⟩

/-- Claim C8 (confirmed): the successful recording flow emits the pre-roll
ticks 3, 2, 1 exactly one 1000 ms interval apart, the pre-roll completion
at 3000 ms starts the Recording Job together with the concurrent countdown
emitting 5, 4, 3, 2, 1, 0, the Succeeded outcome (recordingComplete at
time tc) precedes the automatic load-sample event both in trace order and
in time (tc + 600 ms), the load-sample uses the recorded file path, the
whole trace is ordered by timestamp, and the display label has the form
Recorded HH colon MM colon SS (9 + 8 characters). -/
theorem C8_recording_flow_order (tc h m sec : Nat) (path : String)
    (htc : 8000 ≤ tc) (hh : h < 24) (hm : m < 60) (hs : sec < 60) :
    pre_countdown_events 3 0 =
      [(0, RecEvent.preTick 3), (1000, RecEvent.preTick 2),
       (2000, RecEvent.preTick 1), (3000, RecEvent.goLabel)] ∧
    start_recording_events 3000 =
      [(3000, RecEvent.recTick 5), (3000, RecEvent.startRecordingJob),
       (4000, RecEvent.recTick 4), (5000, RecEvent.recTick 3),
       (6000, RecEvent.recTick 2), (7000, RecEvent.recTick 1),
       (8000, RecEvent.recTick 0)] ∧
    (record_flow_events tc path (recording_display_name h m sec)).get? 11 =
      some (tc, RecEvent.recordingComplete path (recording_display_name h m sec)) ∧
    (record_flow_events tc path (recording_display_name h m sec)).get? 13 =
      some (tc + 600, RecEvent.autoLoadSample path (recording_display_name h m sec)) ∧
    List.Chain' (fun a b => a.1 ≤ b.1) (record_flow_events tc path (recording_display_name h m sec)) ∧
    recording_display_name h m sec =
      "Recorded " ++ pad2 h ++ ":" ++ pad2 m ++ ":" ++ pad2 sec ∧
    (recording_display_name h m sec).length = 17 := by
  refine ⟨rfl, rfl, rfl, rfl, ?_, rfl, ?_⟩
  · have e : record_flow_events tc path (recording_display_name h m sec) =
        [(0, RecEvent.preTick 3), (1000, RecEvent.preTick 2), (2000, RecEvent.preTick 1),
         (3000, RecEvent.goLabel),
         (3000, RecEvent.recTick 5), (3000, RecEvent.startRecordingJob),
         (4000, RecEvent.recTick 4), (5000, RecEvent.recTick 3), (6000, RecEvent.recTick 2),
         (7000, RecEvent.recTick 1), (8000, RecEvent.recTick 0),
         (tc, RecEvent.recordingComplete path (recording_display_name h m sec)),
         (tc + 500, RecEvent.closeCountdown),
         (tc + 600, RecEvent.autoLoadSample path (recording_display_name h m sec)),
         (tc + 600, RecEvent.statusRecordingDone),
         (tc + 600, RecEvent.enableRecordButton)] := rfl
    rw [e]
    simp [List.chain'_cons, List.chain'_singleton]
    omega
  · have lh : (pad2 h).length = 2 := pad2_length_two h (by omega)
    have lm : (pad2 m).length = 2 := pad2_length_two m (by omega)
    have ls : (pad2 sec).length = 2 := pad2_length_two sec (by omega)
    simp [recording_display_name, strftime_HMS, String.length_append, lh, lm, ls]
    decide

/-- Witness for claim C8 with the job outcome at 9000 ms and wall clock
12:34:56. -/
theorem C8_witness :
    (record_flow_events 9000 "recordings/recorded_1700000000.wav" (recording_display_name 12 34 56)).get? 13 =
      some (9000 + 600, RecEvent.autoLoadSample "recordings/recorded_1700000000.wav" (recording_display_name 12 34 56)) ∧
    recording_display_name 12 34 56 = "Recorded 12:34:56" :=
  ⟨(C8_recording_flow_order 9000 12 34 56 "recordings/recorded_1700000000.wav"
      (by norm_num) (by norm_num) (by norm_num) (by norm_num)).2.2.2.1,
   rfl⟩

/-- Claim C9 (confirmed): remove_file clears voiceSamplePath and applies
the SampleRemoved transition (file-info tile hidden, placeholder shown),
and a second call leaves the state of the first call exactly unchanged:
remove_file is idempotent. -/
theorem C9_remove_sample_idempotent (s : AppState) :
    (remove_file s).voice_sample_path = none ∧
    (remove_file s).file_info_visible = false ∧
    (remove_file s).drop_label_visible = true ∧
    remove_file (remove_file s) = remove_file s :=
  ⟨rfl, rfl, rfl, rfl⟩

/-- Claim C10 (confirmed): any path whose lower-cased name ends in .wav
and whose probed duration is at most the maximum is returned by
validate_audio_file unchanged, for every possible converter — so no
conversion, resampling or down-mix is applied to a WAV input; and a
non-WAV path within the duration limit is routed through convert_to_wav. -/
theorem C10_wav_passthrough (probe : String → ℚ) (conv : String → String) (filepath : String) :
    (pyEndsWith (pyLower filepath) ".wav" = true → probe filepath ≤ 10 →
      validate_audio_file probe conv filepath 10 = Except.ok filepath) ∧
    (pyEndsWith (pyLower filepath) ".wav" = false → probe filepath ≤ 10 →
      validate_audio_file probe conv filepath 10 = Except.ok (conv filepath)) := by
  constructor <;> intro hw hd <;> unfold validate_audio_file <;>
    rw [if_neg (not_lt.mpr hd)] <;> simp [hw]

/-- Witness for claim C10 on an upper-case WAV name and an MP3 name. -/
theorem C10_witness :
    validate_audio_file (fun _ => 4) (fun _ => "/tmp/voice_sample_1700000000.wav") "samples/Clip.WAV" 10 = Except.ok "samples/Clip.WAV" ∧
    validate_audio_file (fun _ => 4) (fun _ => "/tmp/voice_sample_1700000000.wav") "samples/clip.mp3" 10 = Except.ok "/tmp/voice_sample_1700000000.wav" :=
  ⟨(C10_wav_passthrough (fun _ => 4) (fun _ => "/tmp/voice_sample_1700000000.wav") "samples/Clip.WAV").1 rfl (by norm_num),
   (C10_wav_passthrough (fun _ => 4) (fun _ => "/tmp/voice_sample_1700000000.wav") "samples/clip.mp3").2 rfl (by norm_num)⟩

end VoiceClone
